import Mathlib

/-!
Verification of `bootstrap.py`, a zero-dependency bootstrap script that
creates a `.venv` virtual environment at the git repository root and installs
a fixed list of development tools into it.

The script is sequential shell-out orchestration, so we embed it shallowly:
pure string manipulation becomes Lean functions on `String`; interactions
with the outside world (child processes, the filesystem, user input) are
parametrised by explicit oracle values describing what the outside world
would answer, and each function returns the observable effects it performs
(the list of commands it would run, the exit code it would terminate the
process with) as data.
-/

deriving instance DecidableEq for Except

namespace Bootstrap

/-- Python's `a or b` on strings: `a` if it is non-empty (truthy), else `b`.
Used in `InstallSpec.__str__` as `self.version or ' (latest)'`. -/
def pyOr (a b : String) : String := if a = "" then b else a

/-- `InstallSpec` (bootstrap.py lines 42-54): a NamedTuple with fields
`name`, `version` (default `''`), `extras` (default `''`). -/
structure InstallSpec where
  name : String
  version : String := ""
  extras : String := ""
deriving DecidableEq

/-- `InstallSpec.__str__`: `f"{self.name}{self.extras}{self.version or ' (latest)'}"`. -/
def InstallSpec.str (m : InstallSpec) : String :=
  m.name ++ m.extras ++ pyOr m.version " (latest)"

/-- The static configuration `BOOTSTRAP_MODULES` (lines 59-63). -/
def BOOTSTRAP_MODULES : List InstallSpec :=
  [{ name := "uv", version := ">=0.9.18" },
   { name := "tox", version := ">=4.32.0" },
   { name := "tox-uv", version := ">=1.29.0" }]

/-- The per-module argument string built inside `_build_install_command`
(lines 465-471): start from `module.name`, append `module.extras` if truthy,
then append `module.version` if truthy. -/
def specArg (m : InstallSpec) : String :=
  let s := m.name
  let s := if m.extras ≠ "" then s ++ m.extras else s
  let s := if m.version ≠ "" then s ++ m.version else s
  s

/-- The `for module in modules: command.append(spec_str)` loop of
`_build_install_command`, appending one rendered argument per module. -/
def appendSpecArgs (command : List String) : List InstallSpec → List String
  | [] => command
  | m :: rest => appendSpecArgs (command ++ [specArg m]) rest

/-- `_build_install_command` (lines 452-472):
`command = base_command + ["install", "-U"]` followed by the append loop. -/
def build_install_command (base_command : List String)
    (modules : List InstallSpec) : List String :=
  appendSpecArgs (base_command ++ ["install", "-U"]) modules

/-- One external installer invocation issued by the tool installer, recorded
as the base command together with the modules batched into it.  Its concrete
argument list is `Invocation.command`. -/
structure Invocation where
  base : List String
  modules : List InstallSpec
deriving DecidableEq

/-- The concrete argument list of an invocation, exactly as the script would
pass it to `run_command`. -/
def Invocation.command (inv : Invocation) : List String :=
  build_install_command inv.base inv.modules

/-- The base command used by `install_with_pip` (line 448):
`[python_exe, "-m", "pip", "--require-virtualenv"]`.  The python executable
path is abstracted to a string. -/
def pipBase (py : String) : List String := [py, "-m", "pip", "--require-virtualenv"]

/-- The base command used by `install_with_uv` (line 426):
`[python_exe, "-m", "uv", "pip"]`. -/
def uvPipBase (py : String) : List String := [py, "-m", "uv", "pip"]

/-- `install_with_pip` (lines 431-449): a single batched `run_command` with
the pip base command over all given modules.  The printed message does not
affect the issued invocations. -/
def install_with_pip (py : String) (modules : List InstallSpec) : List Invocation :=
  [⟨pipBase py, modules⟩]

/-- `install_with_uv` (lines 403-428):
`uv_module = [mod for mod in modules if mod.name == "uv"][0]` (the `none`
branch models the `IndexError` Python would raise on an empty filter);
bootstrap `uv` via a one-item pip install; if no other modules remain,
return; otherwise issue one batched `uv pip` invocation over the others. -/
def install_with_uv (py : String) (modules : List InstallSpec) :
    Option (List Invocation) :=
  match modules.filter (fun m => m.name == "uv") with
  | [] => none
  | uv_module :: _ =>
    let other_modules := modules.filter (fun m => m.name != "uv")
    some (install_with_pip py [uv_module] ++
      (if other_modules.isEmpty then [] else [⟨uvPipBase py, other_modules⟩]))

/-- `install_tools` (lines 379-400): empty module list returns immediately;
if any module is named `"uv"` delegate to `install_with_uv`, otherwise to
`install_with_pip`.  The result is the ordered list of installer invocations
the call performs (`none` models an uncaught exception). -/
def install_tools (py : String) (modules : List InstallSpec) :
    Option (List Invocation) :=
  if modules.isEmpty then some []
  else if modules.any (fun m => m.name == "uv") then install_with_uv py modules
  else some (install_with_pip py modules)

/-- One outcome of a single `input()` call inside the confirmation prompt:
the user either supplies a line or interrupts (Ctrl-C). -/
inductive InputEvent where
  | answer (s : String)
  | interrupt
deriving DecidableEq

/-- One character of `str.lower`, restricted to ASCII (the prompt's token
alphabet, on which Python's Unicode lowering agrees with ASCII lowering). -/
def asciiLowerChar (c : Char) : Char :=
  if 65 ≤ c.toNat && c.toNat ≤ 90 then Char.ofNat (c.toNat + 32) else c

/-- Python `str.lower`. -/
def pyLower (s : String) : String := ⟨s.data.map asciiLowerChar⟩

/-- The whitespace characters Python's `str.strip()` removes by default. -/
def pyIsSpace (c : Char) : Bool :=
  c = ' ' || c = '\t' || c = '\n' || c = '\r' || c = '\x0b' || c = '\x0c'

/-- Python `str.strip()`: drop leading and trailing whitespace. -/
def pyStrip (s : String) : String :=
  ⟨((s.data.dropWhile pyIsSpace).reverse.dropWhile pyIsSpace).reverse⟩

/-- `choice.lower().strip()` as applied to each answer. -/
def normalizeAnswer (s : String) : String := pyStrip (pyLower s)

/-- The tokens on which the `while` loop of `confirmation_prompt`
(line 260) stops re-prompting. -/
def loopExitTokens : List String := ["y", "yes", "n", "no"]

/-- The tokens the final membership test of `confirmation_prompt`
(line 269) accepts as "yes". -/
def yesTokens : List String := ["", "y", "yes"]

/-- `confirmation_prompt` (lines 253-269), as a function of the stream of
`input()` outcomes.  The initial `choice = ''` never satisfies the loop
test, so at least one event is consumed; a `KeyboardInterrupt` anywhere is
caught and yields `False`; `none` means the stream was exhausted while the
loop was still re-prompting (the call would keep blocking on input). -/
def confirmation_prompt : List InputEvent → Option Bool
  | [] => none
  | InputEvent.interrupt :: _ => some false
  | InputEvent.answer a :: rest =>
    if loopExitTokens.contains (normalizeAnswer a) then
      some (yesTokens.contains (normalizeAnswer a))
    else confirmation_prompt rest

/-- Outcome of the `subprocess.check_output(['git', 'rev-parse',
'--show-toplevel'], ...)` call inside `get_git_root`. -/
inductive GitCmdResult where
  | success (out : String)
  | notFound
  | failed
deriving DecidableEq

/-- The world as seen by `get_git_root`: the git command's outcome, the
current directory followed by its parents in order
(`[current_dir] + list(current_dir.parents)`), and the set of directories
in which `.git` exists as a directory. -/
structure GitOracle where
  cmd : GitCmdResult
  dirs : List String
  gitDirs : List String
deriving DecidableEq

/-- The computation wrapped by `@cache` in `get_git_root` (lines 272-301):
on success, decode and strip the command output; on `FileNotFoundError`,
walk `dirs` for the first one containing a `.git` directory, exiting 1 if
none; on `CalledProcessError`, exit 1.  `Except.error c` models
`sys.exit(c)`. -/
def get_git_root_uncached (o : GitOracle) : Except Nat String :=
  match o.cmd with
  | .success out => .ok (pyStrip out)
  | .notFound =>
    match o.dirs.find? (fun d => o.gitDirs.contains d) with
    | some p => .ok p
    | none => .error 1
  | .failed => .error 1

/-- `get_git_root` with its `functools.lru_cache` made explicit: the cache
slot is `none` before the first successful call.  Returns the result, the
new cache contents, and the number of external `git` invocations performed
(the cache stores only successful returns, as `lru_cache` does not cache
raised exits). -/
def get_git_root_cached (o : GitOracle) (cache : Option String) :
    Except Nat String × Option String × Nat :=
  match cache with
  | some p => (.ok p, some p, 0)
  | none =>
    match get_git_root_uncached o with
    | .ok p => (.ok p, some p, 1)
    | .error c => (.error c, none, 1)

/-- The pieces of creation work `create_virtual_environment` can perform:
`venv.create`, the `ensurepip --upgrade` run, and the pip self-upgrade via
`python -m pip` or via the standalone `pip` script. -/
inductive CreateAction where
  | createVenv
  | ensurepip
  | upgradePipViaModule
  | upgradePipViaScript
deriving DecidableEq

/-- The world as seen by `create_virtual_environment` after the ensure step:
whether `python -m pip --version` succeeds (`pip_module_is_available`), and
whether the standalone `pip` script exists in the environment. -/
structure VenvEnv where
  pipModuleAvailable : Bool
  pipScriptExists : Bool
deriving DecidableEq

/-- `create_virtual_environment` (lines 343-376) as a function of the
oracle and of whether `venv_dir` already exists.  On the creation path the
child commands are assumed to complete (their failure exits are modelled by
`run_command`); `Except.error 1` is the explicit `sys.exit(1)` when pip is
still unusable after `ensurepip`.  Returns the creation work performed and
whether `venv_dir` exists afterwards. -/
def create_virtual_environment (env : VenvEnv) (venvExists : Bool) :
    Except Nat (List CreateAction × Bool) :=
  if !venvExists then
    if !env.pipModuleAvailable then
      if !env.pipScriptExists then .error 1
      else .ok ([.createVenv, .ensurepip, .upgradePipViaScript], true)
    else .ok ([.createVenv, .ensurepip, .upgradePipViaModule], true)
  else .ok ([], venvExists)

/-- Outcome of the `subprocess.run` call inside `run_command`: the program
was missing (`FileNotFoundError`) or it completed with some exit code. -/
inductive ProcResult where
  | completed (code : Nat)
  | notFound
deriving DecidableEq

/-- `run_command` (lines 227-250): `some c` models `sys.exit(c)`, `none` a
normal return.  A missing executable exits 1; a non-zero child exit raises
`CalledProcessError` only when `check` is set, and then the script exits
with the child's own code. -/
def run_command (check : Bool) (result : ProcResult) : Option Nat :=
  match result with
  | .completed c => if check && c != 0 then some c else none
  | .notFound => some 1

/-- The module-level version gate (lines 25-29): Python's
`sys.version_info < (3, 8)` compares `(major, minor)` lexicographically. -/
def versionBelow (v w : Nat × Nat) : Bool :=
  v.1 < w.1 || (v.1 == w.1 && v.2 < w.2)

/-- `some 2` models the `sys.exit(2)` taken when the interpreter running the
script is older than 3.8; `none` means the script proceeds. -/
def module_version_check (v : Nat × Nat) : Option Nat :=
  if versionBelow v (3, 8) then some 2 else none

/-- `_is_windows` (lines 122-124): `sys.platform == "win32"`. -/
def is_windows (platform : String) : Bool := platform == "win32"

/-- The activation command selected inside `print_instructions`
(lines 483-485): the POSIX default, overridden on Windows. -/
def activation_command (isWin : Bool) : String :=
  let activate_script := "source .venv/bin/activate"
  if isWin then ".venv\\Scripts\\activate.bat" else activate_script

/-- The world as seen by `main`: the confirmation prompt's input stream, the
git oracle, and the environment builder's oracle and directory state. -/
structure World where
  events : List InputEvent
  git : GitOracle
  venv : VenvEnv
  venvExists : Bool
deriving DecidableEq

/-- `main` (lines 491-510): a declined prompt prints "Aborted by user." and
exits 0; otherwise the locator, the environment builder and the installer
run in order and `main` returns 0 (the tail models the run with the
installer's child processes succeeding; their failure exits are
`run_command`'s).  `some c` is the process exit code, `none` means the
prompt would block forever on its input stream. -/
def main_model (w : World) : Option Nat :=
  match confirmation_prompt w.events with
  | none => none
  | some false => some 0
  | some true =>
    match get_git_root_uncached w.git with
    | .error c => some c
    | .ok _root =>
      match create_virtual_environment w.venv w.venvExists with
      | .error c => some c
      | .ok _ => some 0

/-! ### Helper lemmas -/

theorem appendSpecArgs_eq (ms : List InstallSpec) :
    ∀ command, appendSpecArgs command ms = command ++ ms.map specArg := by
  induction ms with
  | nil => intro c; simp [appendSpecArgs]
  | cons m rest ih => intro c; simp [appendSpecArgs, ih]

theorem build_install_command_eq (base : List String) (ms : List InstallSpec) :
    build_install_command base ms = base ++ ["install", "-U"] ++ ms.map specArg := by
  simp [build_install_command, appendSpecArgs_eq]

theorem specArg_eq (m : InstallSpec) :
    specArg m = m.name ++ m.extras ++ m.version := by
  by_cases h1 : m.extras = "" <;> by_cases h2 : m.version = "" <;>
    simp [specArg, h1, h2]

-- The uv branch of `install_tools`, resolved against the filter of uv-named
-- specs.
theorem install_tools_of_filter_uv (py : String) (ms : List InstallSpec)
    (first : InstallSpec) (rest : List InstallSpec)
    (h : ms.filter (fun m => m.name == "uv") = first :: rest) :
    install_tools py ms =
      some (⟨pipBase py, [first]⟩ ::
        (if (ms.filter (fun m => m.name != "uv")).isEmpty then []
         else [⟨uvPipBase py, ms.filter (fun m => m.name != "uv")⟩])) := by
  have hfirst : first ∈ ms.filter (fun m => m.name == "uv") := by
    rw [h]; exact List.mem_cons_self _ _
  have hmem := List.mem_filter.mp hfirst
  have hne : ms.isEmpty = false := by
    cases ms with
    | nil => exact absurd hmem.1 (List.not_mem_nil _)
    | cons a as => rfl
  have hany : ms.any (fun m => m.name == "uv") = true :=
    List.any_eq_true.mpr ⟨first, hmem.1, hmem.2⟩
  simp only [install_tools, hne, Bool.false_eq_true, if_false, hany, if_true,
    install_with_uv, h, install_with_pip]
  rfl

-- The pip-only branch of `install_tools`.
theorem install_tools_of_no_uv (py : String) (ms : List InstallSpec)
    (hne : ms ≠ []) (h : ms.filter (fun m => m.name == "uv") = []) :
    install_tools py ms = some [⟨pipBase py, ms⟩] := by
  have hne' : ms.isEmpty = false := by
    cases ms with
    | nil => exact absurd rfl hne
    | cons a as => rfl
  have hany : ms.any (fun m => m.name == "uv") = false := by
    rw [List.any_eq_false]
    intro m hm
    intro hbeq
    have : m ∈ ms.filter (fun m => m.name == "uv") := List.mem_filter.mpr ⟨hm, hbeq⟩
    rw [h] at this
    exact List.not_mem_nil _ this
  simp only [install_tools, hne', Bool.false_eq_true, if_false, hany,
    install_with_pip]

-- An interrupt event ends the prompt with `False` whatever re-prompting
-- preceded it.
theorem confirmation_prompt_interrupt (post : List InputEvent) :
    ∀ pre : List InputEvent,
      (∀ e ∈ pre, ∃ a, e = InputEvent.answer a ∧
         loopExitTokens.contains (normalizeAnswer a) = false) →
      confirmation_prompt (pre ++ InputEvent.interrupt :: post) = some false := by
  intro pre
  induction pre with
  | nil => intro _; rfl
  | cons e es ih =>
    intro hpre
    obtain ⟨a, rfl, hna⟩ := hpre e (List.mem_cons_self _ _)
    simp only [List.cons_append, confirmation_prompt, hna, Bool.false_eq_true,
      if_false]
    exact ih (fun e' he' => hpre e' (List.mem_cons_of_mem _ he'))

/-! ### Claim theorems -/

/-- Claim C1: the answers `y`, `Y`, `yes` do yield `proceed = true` and `n`,
`no`, `NO` yield `proceed = false`, but an empty answer is never accepted:
it fails the loop's exit test and the prompt re-prompts, even though the
final membership test of `confirmation_prompt` lists `''` among its accept
tokens (that token is unreachable).  This contradicts the claim that empty
input is accepted and defaults to yes. -/
theorem confirmation_prompt_empty_not_accepted :
    confirmation_prompt [InputEvent.answer "y"] = some true ∧
    confirmation_prompt [InputEvent.answer "Y"] = some true ∧
    confirmation_prompt [InputEvent.answer "yes"] = some true ∧
    confirmation_prompt [InputEvent.answer "n"] = some false ∧
    confirmation_prompt [InputEvent.answer "no"] = some false ∧
    confirmation_prompt [InputEvent.answer "NO"] = some false ∧
    confirmation_prompt [InputEvent.answer ""] = none ∧
    yesTokens.contains "" = true ∧
    loopExitTokens.contains "" = false := by
  decide

/-- Claim C2: for every `InstallSpec`, the installer argument built by
`_build_install_command` is the plain concatenation `name ++ extras ++
version` (empty parts contribute nothing), the whole command being the base
command, `install -U`, then one such argument per module; the textual
substitution `" (latest)"` happens only in the display rendering
`InstallSpec.__str__` when the version is empty, and whenever the version is
non-empty the display rendering coincides with the installer argument. -/
theorem installer_argument_is_plain_concat (base : List String)
    (ms : List InstallSpec) (m : InstallSpec) :
    build_install_command base ms = base ++ ["install", "-U"] ++ ms.map specArg ∧
    specArg m = m.name ++ m.extras ++ m.version ∧
    (m.version = "" → InstallSpec.str m = m.name ++ m.extras ++ " (latest)") ∧
    (m.version ≠ "" → InstallSpec.str m = specArg m) := by
  refine ⟨build_install_command_eq base ms, specArg_eq m, ?_, ?_⟩
  · intro h
    simp [InstallSpec.str, pyOr, h]
  · intro h
    simp [InstallSpec.str, pyOr, h, specArg_eq]

theorem installer_argument_is_plain_concat_witness :
    build_install_command (pipBase "python") BOOTSTRAP_MODULES =
      ["python", "-m", "pip", "--require-virtualenv", "install", "-U",
       "uv>=0.9.18", "tox>=4.32.0", "tox-uv>=1.29.0"] ∧
    InstallSpec.str ⟨"uv", "", ""⟩ = "uv (latest)" ∧
    InstallSpec.str ⟨"uv", ">=0.9.18", ""⟩ = "uv>=0.9.18" := by
  have h1 := installer_argument_is_plain_concat (pipBase "python")
      BOOTSTRAP_MODULES ⟨"uv", "", ""⟩
  have h2 := installer_argument_is_plain_concat (pipBase "python")
      BOOTSTRAP_MODULES ⟨"uv", ">=0.9.18", ""⟩
  refine ⟨?_, ?_, ?_⟩
  · rw [h1.1]; decide
  · rw [h1.2.2.1 rfl]; decide
  · rw [h2.2.2.2 (by decide)]; decide

/-- Claim C3: a non-empty spec list containing a spec named `uv` yields
exactly the single-item pip bootstrap of the (first) uv spec followed by one
batched `uv pip` invocation over the remaining (non-uv) specs, the second
invocation being dropped when no spec remains; a non-empty list with no uv
spec yields exactly one batched pip invocation over all specs. -/
theorem install_tools_uv_policy (py : String) (ms : List InstallSpec) :
    (∀ first rest, ms.filter (fun m => m.name == "uv") = first :: rest →
      install_tools py ms =
        some (⟨pipBase py, [first]⟩ ::
          (if (ms.filter (fun m => m.name != "uv")).isEmpty then []
           else [⟨uvPipBase py, ms.filter (fun m => m.name != "uv")⟩]))) ∧
    (ms ≠ [] → ms.filter (fun m => m.name == "uv") = [] →
      install_tools py ms = some [⟨pipBase py, ms⟩]) :=
  ⟨fun first rest h => install_tools_of_filter_uv py ms first rest h,
   fun hne h => install_tools_of_no_uv py ms hne h⟩

theorem install_tools_uv_policy_witness :
    install_tools "python" [⟨"uv", ">=0.9.18", ""⟩, ⟨"tox", ">=4.32.0", ""⟩] =
      some [⟨pipBase "python", [⟨"uv", ">=0.9.18", ""⟩]⟩,
            ⟨uvPipBase "python", [⟨"tox", ">=4.32.0", ""⟩]⟩] ∧
    install_tools "python" [⟨"tox", ">=4.32.0", ""⟩] =
      some [⟨pipBase "python", [⟨"tox", ">=4.32.0", ""⟩]⟩] := by
  constructor
  · have h := (install_tools_uv_policy "python"
        [⟨"uv", ">=0.9.18", ""⟩, ⟨"tox", ">=4.32.0", ""⟩]).1
        ⟨"uv", ">=0.9.18", ""⟩ [] (by decide)
    rw [h]; decide
  · have h := (install_tools_uv_policy "python" [⟨"tox", ">=4.32.0", ""⟩]).2
        (by decide) (by decide)
    rw [h]

/-- Claim C4: given an empty spec list, `install_tools` returns immediately
and performs no external invocation. -/
theorem install_tools_empty_noop (py : String) :
    install_tools py [] = some [] := rfl

/-- Claim C8: the activation command printed by `print_instructions` takes
exactly one of the two fixed values, selected purely by the platform flag
computed by `_is_windows`. -/
theorem activation_command_two_variants :
    (∀ isWin : Bool, activation_command isWin = "source .venv/bin/activate" ∨
       activation_command isWin = ".venv\\Scripts\\activate.bat") ∧
    activation_command false = "source .venv/bin/activate" ∧
    activation_command true = ".venv\\Scripts\\activate.bat" ∧
    is_windows "win32" = true ∧
    is_windows "linux" = false := by
  refine ⟨?_, rfl, rfl, by decide, by decide⟩
  intro isWin
  cases isWin
  · left; rfl
  · right; rfl

/-- Claim C5: `create_virtual_environment` is idempotent: a call on an
existing directory is a no-op that does not error, any successful call
leaves the directory present, a second call after a successful one performs
no creation work, and across the two calls `venv.create` runs exactly once
when the directory was initially absent (zero times when it was present). -/
theorem create_virtual_environment_idempotent (env : VenvEnv) (b b₁ : Bool)
    (acts : List CreateAction)
    (h : create_virtual_environment env b = .ok (acts, b₁)) :
    create_virtual_environment env true = .ok ([], true) ∧
    create_virtual_environment env b₁ = .ok ([], true) ∧
    acts.count .createVenv = (if b then 0 else 1) := by
  cases b
  case false =>
    cases hpa : env.pipModuleAvailable <;> cases hps : env.pipScriptExists <;>
      simp [create_virtual_environment, hpa, hps] at h
    all_goals obtain ⟨rfl, rfl⟩ := h
    all_goals exact ⟨rfl, rfl, by decide⟩
  case true =>
    simp [create_virtual_environment] at h
    obtain ⟨rfl, rfl⟩ := h
    exact ⟨rfl, rfl, by decide⟩

theorem create_virtual_environment_idempotent_witness :
    create_virtual_environment ⟨true, true⟩ true = .ok ([], true) ∧
    ([CreateAction.createVenv, CreateAction.ensurepip,
      CreateAction.upgradePipViaModule].count CreateAction.createVenv
      = 1) := by
  have h := create_virtual_environment_idempotent ⟨true, true⟩ false true
      [.createVenv, .ensurepip, .upgradePipViaModule] (by decide)
  exact ⟨h.1, h.2.2.trans (by decide)⟩

/-- Claim C6: the exit-code taxonomy.  A host version lexicographically
below (3, 8) exits 2 and any other version passes the gate; a missing
executable exits 1 (and so do the broken-install and not-in-checkout
failures); a checked child process that exits non-zero makes the script exit
with the child's own code (a zero exit returns normally); and `main` exits 0
both on user abort and on a successful run. -/
theorem exit_code_taxonomy (v : Nat × Nat) (c : Nat) (check : Bool)
    (env : VenvEnv) (o : GitOracle) (w : World) :
    ((v.1 < 3 ∨ (v.1 = 3 ∧ v.2 < 8)) → module_version_check v = some 2) ∧
    (¬ (v.1 < 3 ∨ (v.1 = 3 ∧ v.2 < 8)) → module_version_check v = none) ∧
    run_command check ProcResult.notFound = some 1 ∧
    (c ≠ 0 → run_command true (ProcResult.completed c) = some c) ∧
    run_command check (ProcResult.completed 0) = none ∧
    (env.pipModuleAvailable = false → env.pipScriptExists = false →
      create_virtual_environment env false = .error 1) ∧
    (o.cmd = .failed → get_git_root_uncached o = .error 1) ∧
    (o.cmd = .notFound → o.dirs.find? (fun d => o.gitDirs.contains d) = none →
      get_git_root_uncached o = .error 1) ∧
    (confirmation_prompt w.events = some false → main_model w = some 0) ∧
    (confirmation_prompt w.events = some true →
      ∀ root result, get_git_root_uncached w.git = .ok root →
        create_virtual_environment w.venv w.venvExists = .ok result →
        main_model w = some 0) := by
  refine ⟨?_, ?_, rfl, ?_, ?_, ?_, ?_, ?_, ?_, ?_⟩
  · intro h
    have hb : versionBelow v (3, 8) = true := by
      simp only [versionBelow, Bool.or_eq_true, Bool.and_eq_true,
        decide_eq_true_eq, beq_iff_eq]
      exact h
    simp [module_version_check, hb]
  · intro h
    have hb : versionBelow v (3, 8) = false := by
      simp only [versionBelow, Bool.or_eq_false_iff, Bool.and_eq_false_iff]
      push_neg at h
      refine ⟨by simpa using h.1, ?_⟩
      by_cases h1 : v.1 = 3
      · right; simpa using h.2 h1
      · left; simpa using h1
    simp [module_version_check, hb]
  · intro h
    simp [run_command, h]
  · simp [run_command]
  · intro h1 h2
    simp [create_virtual_environment, h1, h2]
  · intro h
    unfold get_git_root_uncached
    rw [h]
  · intro h1 h2
    unfold get_git_root_uncached
    rw [h1, h2]
  · intro h
    simp [main_model, h]
  · intro h root result hg hv
    simp [main_model, h, hg, hv]

theorem exit_code_taxonomy_witness :
    module_version_check (3, 7) = some 2 ∧
    module_version_check (3, 8) = none ∧
    run_command true ProcResult.notFound = some 1 ∧
    run_command true (ProcResult.completed 5) = some 5 ∧
    create_virtual_environment ⟨false, false⟩ false = .error 1 ∧
    get_git_root_uncached ⟨GitCmdResult.failed, [], []⟩ = .error 1 ∧
    main_model ⟨[InputEvent.answer "n"], ⟨GitCmdResult.failed, [], []⟩,
      ⟨true, true⟩, false⟩ = some 0 := by
  have hlow := exit_code_taxonomy (3, 7) 5 true ⟨false, false⟩
      ⟨GitCmdResult.failed, [], []⟩
      ⟨[InputEvent.answer "n"], ⟨GitCmdResult.failed, [], []⟩, ⟨true, true⟩, false⟩
  have hhigh := exit_code_taxonomy (3, 8) 5 true ⟨false, false⟩
      ⟨GitCmdResult.failed, [], []⟩
      ⟨[InputEvent.answer "n"], ⟨GitCmdResult.failed, [], []⟩, ⟨true, true⟩, false⟩
  refine ⟨hlow.1 (by decide), hhigh.2.1 (by decide), hlow.2.2.1,
    hlow.2.2.2.1 (by decide), hlow.2.2.2.2.2.1 rfl rfl,
    hlow.2.2.2.2.2.2.1 rfl, hlow.2.2.2.2.2.2.2.2.1 (by decide)⟩

/-- Claim C7: a `KeyboardInterrupt` raised while the prompt is (re-)asking
is caught inside `confirmation_prompt` and yields `proceed = false`, and
`main` then terminates with exit code 0, the normal user-abort path. -/
theorem interrupt_aborts_cleanly (pre post : List InputEvent) (w : World)
    (hpre : ∀ e ∈ pre, ∃ a, e = InputEvent.answer a ∧
       loopExitTokens.contains (normalizeAnswer a) = false)
    (hw : w.events = pre ++ InputEvent.interrupt :: post) :
    confirmation_prompt w.events = some false ∧ main_model w = some 0 := by
  have hc := confirmation_prompt_interrupt post pre hpre
  refine ⟨by rw [hw]; exact hc, ?_⟩
  simp [main_model, hw, hc]

theorem interrupt_aborts_cleanly_witness :
    confirmation_prompt [InputEvent.answer "maybe", InputEvent.interrupt]
      = some false ∧
    main_model ⟨[InputEvent.answer "maybe", InputEvent.interrupt],
      ⟨GitCmdResult.failed, [], []⟩, ⟨true, true⟩, false⟩ = some 0 := by
  have h := interrupt_aborts_cleanly [InputEvent.answer "maybe"] []
      ⟨[InputEvent.answer "maybe", InputEvent.interrupt],
        ⟨GitCmdResult.failed, [], []⟩, ⟨true, true⟩, false⟩
      (fun e he => by
        rw [List.mem_singleton.mp he]
        exact ⟨"maybe", rfl, by decide⟩)
      rfl
  exact h

/-- Claim C9: `get_git_root` is memoized.  Any successful first call (from
an empty cache) performs exactly one external `git` invocation and fills the
cache; a second call — even against a world in which the `git` command would
now fail — returns the identical cached path with zero external
invocations. -/
theorem get_git_root_memoized (o o₂ : GitOracle) (p : String)
    (cache : Option String) (n : Nat)
    (h : get_git_root_cached o none = (.ok p, cache, n)) :
    get_git_root_cached o₂ cache = (.ok p, cache, 0) ∧ n = 1 := by
  unfold get_git_root_cached at h
  cases hg : get_git_root_uncached o <;> rw [hg] at h <;>
    simp only [Prod.mk.injEq, Except.ok.injEq, reduceCtorEq, false_and] at h
  obtain ⟨rfl, rfl, rfl⟩ := h
  exact ⟨rfl, rfl⟩

theorem get_git_root_memoized_witness :
    get_git_root_cached ⟨GitCmdResult.failed, [], []⟩ (some "/repo") =
      (.ok "/repo", some "/repo", 0) ∧ (1 : Nat) = 1 :=
  get_git_root_memoized ⟨GitCmdResult.success "/repo\n", [], []⟩
    ⟨GitCmdResult.failed, [], []⟩ "/repo" (some "/repo") 1 (by decide)

/-- Claim C10: when the spec list contains several specs named `uv`, the
pip bootstrap covers exactly the first of them, and no issued invocation's
module batch contains a uv-named spec other than that first one — so a
duplicate uv spec is installed by no invocation unless it is literally the
same spec value as the first. -/
theorem duplicate_uv_specs_never_installed (py : String)
    (ms : List InstallSpec) (first : InstallSpec) (rest : List InstallSpec)
    (h : ms.filter (fun m => m.name == "uv") = first :: rest) :
    ∃ invs, install_tools py ms = some invs ∧
      invs.head? = some ⟨pipBase py, [first]⟩ ∧
      (∀ inv ∈ invs, ∀ m ∈ inv.modules, m.name = "uv" → m = first) ∧
      (∀ m ∈ rest, ∀ inv ∈ invs, m ∈ inv.modules → m = first) := by
  have htools := install_tools_of_filter_uv py ms first rest h
  have hall : ∀ inv ∈ ((⟨pipBase py, [first]⟩ :
        Invocation) ::
        (if (ms.filter (fun m => m.name != "uv")).isEmpty then []
         else [⟨uvPipBase py, ms.filter (fun m => m.name != "uv")⟩])),
      ∀ m ∈ inv.modules, m.name = "uv" → m = first := by
    intro inv hinv m hm hname
    rcases List.mem_cons.mp hinv with rfl | htail
    · simpa using List.mem_singleton.mp hm
    · by_cases hemp : (ms.filter (fun m => m.name != "uv")).isEmpty
      · rw [if_pos hemp] at htail
        exact absurd htail (List.not_mem_nil _)
      · rw [if_neg hemp] at htail
        rw [List.mem_singleton.mp htail] at hm
        have hne := (List.mem_filter.mp hm).2
        simp only [bne_iff_ne, ne_eq] at hne
        exact absurd hname hne
  refine ⟨_, htools, rfl, hall, ?_⟩
  intro m hmrest inv hinv hm
  have hmf : m ∈ ms.filter (fun m => m.name == "uv") := by
    rw [h]; exact List.mem_cons_of_mem _ hmrest
  have hname : m.name = "uv" := by
    simpa using (List.mem_filter.mp hmf).2
  exact hall inv hinv m hm hname

theorem duplicate_uv_specs_never_installed_witness :
    ∃ invs, install_tools "python"
        [(⟨"uv", ">=1", ""⟩ : InstallSpec), ⟨"uv", ">=2", ""⟩, ⟨"tox", "", ""⟩]
        = some invs ∧
      invs.head? = some ⟨pipBase "python", [⟨"uv", ">=1", ""⟩]⟩ ∧
      (∀ inv ∈ invs, ∀ m ∈ inv.modules, m.name = "uv" →
        m = (⟨"uv", ">=1", ""⟩ : InstallSpec)) ∧
      (∀ m ∈ [(⟨"uv", ">=2", ""⟩ : InstallSpec)], ∀ inv ∈ invs,
        m ∈ inv.modules → m = (⟨"uv", ">=1", ""⟩ : InstallSpec)) :=
  duplicate_uv_specs_never_installed "python"
    [⟨"uv", ">=1", ""⟩, ⟨"uv", ">=2", ""⟩, ⟨"tox", "", ""⟩]
    ⟨"uv", ">=1", ""⟩ [⟨"uv", ">=2", ""⟩] (by decide)

end Bootstrap
